import Mathlib

/-!
Shallow embedding of the PayChargePortal provisioning routes.

The embedded code consists of the two Express route handlers that provision a
three-instalment PCN payment plan against Stripe:

* mode A, `POST /api/create-subscription` (src/server/routes.ts): parses the
  request body with `insertCustomerSchema`, resolves the local customer,
  ensures a Stripe customer, creates a product, a fixed £30.00/month price,
  a subscription with `cancel_at` 90 days out, persists the subscription id,
  and returns `{ clientSecret, subscriptionId, customerId }`;
* mode B, `POST /api/create-checkout-session` (src/unnamed/part_000, first
  document): destructures the request body with no validation, resolves the
  local customer, ensures a Stripe customer, creates a product, a price of
  `Math.round((penaltyAmount / 3) * 100)` pence, a 3-iteration subscription
  schedule, a checkout session, and returns `{ sessionId, url, customerId }`.

External collaborators (the storage module and the Stripe SDK) are modelled as
explicit state (the registry list) and an oracle of processor-chosen values;
every storage and Stripe call the handlers issue is recorded in an event trace
in program order, so that ordering and payload properties can be stated.
Amounts are rationals; `Math.round` is `⌊q + 1/2⌋`, which is exactly the
round-half-toward-positive-infinity behaviour of the JavaScript builtin.
-/

namespace PayChargePortal

/-- JavaScript `Math.round`: round half toward positive infinity. -/
def jsRound (q : ℚ) : ℤ := ⌊q + 1 / 2⌋

/-- The per-instalment amount of the mode-B route, from
`const monthlyAmountInPence = Math.round((penaltyAmount / 3) * 100);`
(src/unnamed/part_000 line 58). All three instalments charge this amount. -/
def monthlyAmountInPence (penaltyAmount : ℚ) : ℤ :=
  jsRound (penaltyAmount / 3 * 100)

/-- Two-digit zero padding used when rendering pence as pounds. -/
def pad2 (k : ℕ) : String :=
  if k < 10 then "0" ++ toString k else toString k

/-- Models JavaScript `Number.prototype.toFixed(2)` on amounts: the amount
rounded to pence and rendered as a decimal with two fractional digits. -/
def toFixed2 (q : ℚ) : String :=
  let n : ℤ := jsRound (q * 100)
  (if n < 0 then "-" else "") ++ toString (n.natAbs / 100) ++ "." ++ pad2 (n.natAbs % 100)

/-- Models JavaScript `Number.prototype.toString` on amounts. Exact for
integer-valued amounts (the only values the concrete theorems below evaluate
it at); non-integer amounts are rendered with two decimal places. -/
def qToString (q : ℚ) : String :=
  if q.den = 1 then
    (if q.num < 0 then "-" else "") ++ toString q.num.natAbs
  else toFixed2 q

/-- A local customer record, after the `customers` table
(fields listed in src/unnamed/part_001: id, email, pcnNumber,
vehicleRegistration, stripeCustomerId, stripeSubscriptionId). -/
structure Customer where
  id : String
  email : String
  pcnNumber : String
  vehicleRegistration : String
  stripeCustomerId : Option String
  stripeSubscriptionId : Option String
deriving Repr, DecidableEq

/-- The request body of a provisioning call:
`{ email, pcnNumber, vehicleRegistration, penaltyAmount }`. -/
structure ProvisionRequest where
  email : String
  pcnNumber : String
  vehicleRegistration : String
  penaltyAmount : ℚ
deriving Repr, DecidableEq

/-- The registry of local customer records, in creation order. -/
abbrev Registry := List Customer

/-- Modelled from the spec: `storage.getCustomerByEmail` (the storage module
is not under src/; the spec's Registry contract gives `findByEmail` as a pure
exact-match lookup). -/
def getCustomerByEmail (reg : Registry) (email : String) : Option Customer :=
  reg.find? (fun c => c.email == email)

/-- Modelled from the spec: `storage.createCustomer` (the storage module is
not under src/); inserts a fresh record with no processor ids. The
`ConflictError` a concurrent duplicate create raises is modelled separately
in the race model below; within one sequential handler run the email was just
observed absent, so the insert succeeds. -/
def createCustomer (reg : Registry) (newId email pcn vreg : String) :
    Customer × Registry :=
  let c : Customer := ⟨newId, email, pcn, vreg, none, none⟩
  (c, reg ++ [c])

/-- Setting the Stripe fields of one record; every other field is kept. -/
def applyStripeInfo (c : Customer) (sid : String) (subId : Option String) :
    Customer :=
  { c with
    stripeCustomerId := some sid
    stripeSubscriptionId := subId.orElse (fun _ => c.stripeSubscriptionId) }

/-- Modelled from the spec: `storage.updateCustomerStripeInfo` (the storage
module is not under src/; the spec's Registry contract gives
`attachProcessorIds(customerId, processorCustomerId, processorSubscriptionId?)`
which sets the processor ids of the matching record and leaves the identity
fields alone). -/
def updateCustomerStripeInfo (reg : Registry) (cid sid : String)
    (subId : Option String) : Registry :=
  reg.map (fun c => if c.id == cid then applyStripeInfo c sid subId else c)

/-- One storage or Stripe call issued by a handler, with the payload the
handler passes. Metadata is the association list of string key/value pairs
given to the Stripe SDK (empty when the source passes no `metadata` field). -/
inductive Event where
  | getCustomer (email : String)
  | storeCustomer (email pcn vreg : String)
  | storeStripeInfo (customerId stripeCustomerId : String)
      (subscriptionId : Option String)
  | customersRetrieve (stripeCustomerId : String)
  | customersCreate (email : String) (metadata : List (String × String))
  | productsCreate (name description : String)
      (metadata : List (String × String))
  | pricesCreate (unitAmount : ℤ) (currency : String) (productId : String)
      (metadata : List (String × String))
  | subscriptionsCreate (stripeCustomerId priceId : String)
      (metadata : List (String × String)) (cancelAt : ℤ)
  | subscriptionSchedulesCreate (stripeCustomerId priceId : String)
      (metadata : List (String × String)) (iterations : ℕ)
  | checkoutSessionsCreate (stripeCustomerId successUrl cancelUrl : String)
      (metadata : List (String × String))
deriving Repr, DecidableEq

/-- The values chosen by the external collaborators during one run: the ids
the storage layer and Stripe assign to freshly created objects, the payload
of the created checkout session, and the clock reading `Date.now()/1000`. -/
structure Oracle where
  newLocalId : String
  newStripeCustomerId : String
  productId : String
  priceId : String
  subscriptionId : String
  clientSecret : Option String
  sessionId : String
  sessionUrl : String
  nowSec : ℤ
deriving Repr, DecidableEq

/-- Result of the shared identity-resolution fragment
(`getCustomerByEmail`, then `createCustomer` when absent). -/
structure IdentResult where
  customer : Customer
  registry : Registry
  events : List Event
deriving Repr, DecidableEq

/-- Lines 23–33 of src/server/routes.ts and 22–30 of src/unnamed/part_000
(identical in both routes): fetch the customer by email, create the record
when there is none. -/
def resolveIdentity (req : ProvisionRequest) (reg : Registry) (o : Oracle) :
    IdentResult :=
  match getCustomerByEmail reg req.email with
  | some c => ⟨c, reg, [.getCustomer req.email]⟩
  | none =>
      let p := createCustomer reg o.newLocalId req.email req.pcnNumber
        req.vehicleRegistration
      ⟨p.1, p.2,
        [.getCustomer req.email,
         .storeCustomer req.email req.pcnNumber req.vehicleRegistration]⟩

/-- Result of the shared Stripe-customer fragment. -/
structure StripeCustResult where
  stripeCustomerId : String
  customer : Customer
  registry : Registry
  events : List Event
deriving Repr, DecidableEq

/-- Lines 35–50 of src/server/routes.ts and 32–50 of src/unnamed/part_000
(identical in both routes): retrieve the Stripe customer when the record
already holds an id, otherwise create one (metadata: pcnNumber and
vehicleRegistration) and immediately persist the returned id via
`updateCustomerStripeInfo`. -/
def ensureStripeCustomer (c : Customer) (reg : Registry) (o : Oracle) :
    StripeCustResult :=
  match c.stripeCustomerId with
  | some sid => ⟨sid, c, reg, [.customersRetrieve sid]⟩
  | none =>
      let sid := o.newStripeCustomerId
      ⟨sid, applyStripeInfo c sid none,
        updateCustomerStripeInfo reg c.id sid none,
        [.customersCreate c.email
          [("pcnNumber", c.pcnNumber),
           ("vehicleRegistration", c.vehicleRegistration)],
         .storeStripeInfo c.id sid none]⟩

/-- Mode-A success payload:
`{ clientSecret, subscriptionId, customerId }` (src/server/routes.ts 94–98). -/
structure SubscriptionResponse where
  clientSecret : Option String
  subscriptionId : String
  customerId : String
deriving Repr, DecidableEq

/-- The mode-A route `POST /api/create-subscription`
(src/server/routes.ts 19–104). `insertCustomerSchema.parse` extracts the
email, pcnNumber and vehicleRegistration fields (the schema covers exactly
the customers-table columns listed in src/unnamed/part_001, so
`penaltyAmount` is not part of it and is never read by this route); the
typed `ProvisionRequest` already carries them. Returns the response, the
final registry, and the calls issued in program order. -/
def createSubscription (req : ProvisionRequest) (reg : Registry) (o : Oracle) :
    SubscriptionResponse × Registry × List Event :=
  let r1 := resolveIdentity req reg o
  let r2 := ensureStripeCustomer r1.customer r1.registry o
  let c := r2.customer
  let sid := r2.stripeCustomerId
  let schemeEvents : List Event :=
    [.productsCreate ("PCN Payment Plan - " ++ req.pcnNumber)
       ("Recurring payment plan for PCN " ++ req.pcnNumber ++ ", Vehicle " ++
         req.vehicleRegistration) [],
     .pricesCreate 3000 "gbp" o.productId [],
     .subscriptionsCreate sid o.priceId
       [("pcnNumber", c.pcnNumber),
        ("vehicleRegistration", c.vehicleRegistration),
        ("totalPayments", "3")]
       (o.nowSec + 90 * 24 * 60 * 60),
     .storeStripeInfo c.id sid (some o.subscriptionId)]
  ({ clientSecret := o.clientSecret
     subscriptionId := o.subscriptionId
     customerId := c.id },
   updateCustomerStripeInfo r2.registry c.id sid (some o.subscriptionId),
   r1.events ++ r2.events ++ schemeEvents)

/-- Mode-B success payload:
`{ sessionId, url, customerId }` (src/unnamed/part_000 118–122). -/
structure SessionResponse where
  sessionId : String
  url : String
  customerId : String
deriving Repr, DecidableEq

/-- The mode-B route `POST /api/create-checkout-session`
(src/unnamed/part_000 18–130). The body is destructured with no schema and
no validation; the product and price are created, then a 3-iteration
subscription schedule and a checkout session whose success and cancel urls
are derived from the configured domain url. The route returns the session
id, the session url Stripe produced, and the local customer id; no
subscription or schedule id is written back to storage. -/
def createCheckoutSession (req : ProvisionRequest) (reg : Registry)
    (baseUrl : String) (o : Oracle) :
    SessionResponse × Registry × List Event :=
  let r1 := resolveIdentity req reg o
  let r2 := ensureStripeCustomer r1.customer r1.registry o
  let c := r2.customer
  let sid := r2.stripeCustomerId
  let amt := req.penaltyAmount
  let schemeEvents : List Event :=
    [.productsCreate ("PCN Payment Plan - " ++ req.pcnNumber)
       ("Recurring payment plan for PCN " ++ req.pcnNumber ++ ", Vehicle " ++
         req.vehicleRegistration ++ ", Total: £" ++ qToString amt) [],
     .pricesCreate (monthlyAmountInPence amt) "gbp" o.productId [],
     .subscriptionSchedulesCreate sid o.priceId
       [("pcnNumber", c.pcnNumber),
        ("vehicleRegistration", c.vehicleRegistration),
        ("totalPayments", "3"),
        ("penaltyAmount", qToString amt),
        ("monthlyAmount", toFixed2 (amt / 3))] 3,
     .checkoutSessionsCreate sid
       (baseUrl ++ "/payment-success?session_id=\x7bCHECKOUT_SESSION_ID\x7d")
       (baseUrl ++ "/")
       [("customerId", c.id),
        ("pcnNumber", c.pcnNumber),
        ("vehicleRegistration", c.vehicleRegistration),
        ("penaltyAmount", qToString amt),
        ("monthlyAmount", toFixed2 (amt / 3))]]
  ({ sessionId := o.sessionId
     url := o.sessionUrl
     customerId := c.id },
   r2.registry,
   r1.events ++ r2.events ++ schemeEvents)

/-- Does an event belong to charge-scheme creation (product, price,
subscription or schedule)? Used to state persist-before-proceed ordering. -/
def isChargeSchemeCall : Event → Bool
  | .productsCreate _ _ _ => true
  | .pricesCreate _ _ _ _ => true
  | .subscriptionsCreate _ _ _ _ => true
  | .subscriptionSchedulesCreate _ _ _ _ => true
  | _ => false

/-- The keys of a metadata association list, in order. -/
def metaKeys (m : List (String × String)) : List String := m.map Prod.fst

/-- Does string `s` start with string `p`? (JavaScript `String.startsWith`.) -/
def strStartsWith (p s : String) : Bool := p.data.isPrefixOf s.data

/-- Number of registry records carrying a given email. -/
def countEmail (reg : Registry) (email : String) : ℕ :=
  (reg.filter (fun c => c.email == email)).length

/-!
Race model for identity resolution. Two concurrent runs of the handler's
identity-resolution fragment (src/server/routes.ts 23–33 / part_000 22–30)
share the registry; each run first looks the email up and then, when it saw
the email absent, calls `createCustomer`. Per the spec's Registry contract the
storage layer serializes creates for the same email, so a create that finds
the email present fails with `ConflictError`; the handler has no handler for
it besides the route-level `catch`, which returns the error to the caller.
-/

/-- Position of one run inside the identity-resolution fragment. -/
inductive RunPhase where
  | start
  | sawAbsent
  | finished
deriving Repr, DecidableEq

/-- How a finished run ended: normally, or with the storage `ConflictError`
escaping to the route's catch block (an HTTP 400 for the caller). -/
inductive RunOutcome where
  | ok
  | conflictSurfaced
deriving Repr, DecidableEq

/-- One run's control state in the race model. -/
structure RunState where
  phase : RunPhase
  outcome : Option RunOutcome
deriving Repr, DecidableEq

/-- The shared state of two racing provisioning runs for the same email. -/
structure RaceState where
  registry : Registry
  run1 : RunState
  run2 : RunState
deriving Repr, DecidableEq

/-- Modelled from the spec: one atomic step of a run against the shared
registry. Lookup observes presence; a create re-checks (the storage layer's
unique-key enforcement): present means `ConflictError`, which the handler
code does not catch specifically, so the run finishes with the error
surfaced; absent means the record is inserted and the run proceeds. -/
def runStep (email pcn vreg newId : String) (reg : Registry) (r : RunState) :
    Registry × RunState :=
  match r.phase with
  | .start =>
      match getCustomerByEmail reg email with
      | some _ => (reg, ⟨.finished, some .ok⟩)
      | none => (reg, ⟨.sawAbsent, none⟩)
  | .sawAbsent =>
      match getCustomerByEmail reg email with
      | some _ => (reg, ⟨.finished, some .conflictSurfaced⟩)
      | none => ((createCustomer reg newId email pcn vreg).2,
          ⟨.finished, some .ok⟩)
  | .finished => (reg, r)

/-- Scheduler step: `true` lets run 1 move, `false` lets run 2 move. -/
def raceStep (email pcn vreg id1 id2 : String) (s : RaceState) (w : Bool) :
    RaceState :=
  if w then
    let p := runStep email pcn vreg id1 s.registry s.run1
    ⟨p.1, p.2, s.run2⟩
  else
    let p := runStep email pcn vreg id2 s.registry s.run2
    ⟨p.1, s.run1, p.2⟩

/-- Run a whole interleaving from the empty registry, both runs at start. -/
def execRace (email pcn vreg id1 id2 : String) (sched : List Bool) :
    RaceState :=
  sched.foldl (raceStep email pcn vreg id1 id2)
    ⟨[], ⟨.start, none⟩, ⟨.start, none⟩⟩

/-- Invariant of the race model: the shared registry never holds more than
one record for the contested email, and from the moment either run has
finished it holds exactly one. -/
def RaceInv (email : String) (s : RaceState) : Prop :=
  countEmail s.registry email ≤ 1 ∧
  (s.run1.outcome.isSome → countEmail s.registry email = 1) ∧
  (s.run2.outcome.isSome → countEmail s.registry email = 1)

/-!
Concrete inputs used by counterexamples and witnesses.
-/

/-- A demonstration request with a given penalty amount. -/
def demoReq (amount : ℚ) : ProvisionRequest :=
  ⟨"a@x.com", "PCN1", "AB12CDE", amount⟩

/-- Demonstration oracle: the ids the collaborators assign in a fresh run. -/
def demoOracle : Oracle :=
  ⟨"c1", "cus_1", "prod_1", "price_1", "sub_1", some "secret_1", "cs_1",
   "https://checkout.stripe.com/c/pay/cs_1", 1000⟩

/-- Demonstration deployment configuration (the development fallback of
src/unnamed/part_000 line 95). -/
def demoBase : String := "http://localhost:5000"

/-- A registry holding one customer that already carries a Stripe customer
id, as left behind by an earlier provisioning run. -/
def demoCustomer : Customer :=
  ⟨"c1", "a@x.com", "PCN1", "AB12CDE", some "cus_1", none⟩

/-! Helper lemmas about the registry operations, the shared handler
fragments, the amount arithmetic and the race model. -/

@[simp] theorem applyStripeInfo_id (c : Customer) (s : String) (i : Option String) :
    (applyStripeInfo c s i).id = c.id := rfl

@[simp] theorem applyStripeInfo_email (c : Customer) (s : String) (i : Option String) :
    (applyStripeInfo c s i).email = c.email := rfl

@[simp] theorem applyStripeInfo_pcn (c : Customer) (s : String) (i : Option String) :
    (applyStripeInfo c s i).pcnNumber = c.pcnNumber := rfl

@[simp] theorem applyStripeInfo_vreg (c : Customer) (s : String) (i : Option String) :
    (applyStripeInfo c s i).vehicleRegistration = c.vehicleRegistration := rfl

@[simp] theorem applyStripeInfo_stripeCustomerId (c : Customer) (s : String) (i : Option String) :
    (applyStripeInfo c s i).stripeCustomerId = some s := rfl

theorem ensureStripeCustomer_customer_id (c : Customer) (reg : Registry) (o : Oracle) :
    (ensureStripeCustomer c reg o).customer.id = c.id := by
  cases h : c.stripeCustomerId <;> simp [ensureStripeCustomer, h]

theorem ensureStripeCustomer_customer_pcn (c : Customer) (reg : Registry) (o : Oracle) :
    (ensureStripeCustomer c reg o).customer.pcnNumber = c.pcnNumber := by
  cases h : c.stripeCustomerId <;> simp [ensureStripeCustomer, h]

theorem ensureStripeCustomer_customer_vreg (c : Customer) (reg : Registry) (o : Oracle) :
    (ensureStripeCustomer c reg o).customer.vehicleRegistration = c.vehicleRegistration := by
  cases h : c.stripeCustomerId <;> simp [ensureStripeCustomer, h]

theorem find?_updateCustomerStripeInfo (reg : Registry) (cid sid : String)
    (subId : Option String) (email : String) :
    (updateCustomerStripeInfo reg cid sid subId).find? (fun c => c.email == email)
      = (reg.find? (fun c => c.email == email)).map
          (fun c => if c.id == cid then applyStripeInfo c sid subId else c) := by
  induction reg with
  | nil => rfl
  | cons x xs ih =>
      have hcons : updateCustomerStripeInfo (x :: xs) cid sid subId
          = (if x.id == cid then applyStripeInfo x sid subId else x)
              :: updateCustomerStripeInfo xs cid sid subId := rfl
      have hemail : (((if x.id == cid then applyStripeInfo x sid subId else x).email == email) : Bool)
          = (x.email == email) := by
        by_cases hid : (x.id == cid) = true <;> simp [hid]
      by_cases he : (x.email == email) = true
      · have h1 : List.find? (fun c => c.email == email)
            ((if x.id == cid then applyStripeInfo x sid subId else x)
              :: updateCustomerStripeInfo xs cid sid subId)
            = some (if x.id == cid then applyStripeInfo x sid subId else x) :=
          List.find?_cons_of_pos _ (by rw [hemail]; exact he)
        have h2 : List.find? (fun c => c.email == email) (x :: xs) = some x :=
          List.find?_cons_of_pos _ he
        rw [hcons, h1, h2]; rfl
      · have h1 : List.find? (fun c => c.email == email)
            ((if x.id == cid then applyStripeInfo x sid subId else x)
              :: updateCustomerStripeInfo xs cid sid subId)
            = List.find? (fun c => c.email == email)
                (updateCustomerStripeInfo xs cid sid subId) :=
          List.find?_cons_of_neg _ (by rw [hemail]; exact he)
        have h2 : List.find? (fun c => c.email == email) (x :: xs)
            = List.find? (fun c => c.email == email) xs :=
          List.find?_cons_of_neg _ he
        rw [hcons, h1, h2, ih]

theorem mem_resolveIdentity_events (req : ProvisionRequest) (reg : Registry)
    (o : Oracle) (ev : Event) (h : ev ∈ (resolveIdentity req reg o).events) :
    ev = .getCustomer req.email ∨
      ev = .storeCustomer req.email req.pcnNumber req.vehicleRegistration := by
  cases hc : getCustomerByEmail reg req.email <;>
    simp [resolveIdentity, hc] at h <;> tauto

theorem mem_ensureStripeCustomer_events (c : Customer) (reg : Registry)
    (o : Oracle) (ev : Event) (h : ev ∈ (ensureStripeCustomer c reg o).events) :
    (∃ s, ev = .customersRetrieve s) ∨
      ev = .customersCreate c.email
        [("pcnNumber", c.pcnNumber), ("vehicleRegistration", c.vehicleRegistration)] ∨
      ev = .storeStripeInfo c.id o.newStripeCustomerId none := by
  cases hs : c.stripeCustomerId <;>
    simp [ensureStripeCustomer, hs] at h <;> tauto

theorem monthlyAmountInPence_91 : monthlyAmountInPence 91 = 3033 := by
  norm_num [monthlyAmountInPence, jsRound]

theorem monthlyAmountInPence_zero : monthlyAmountInPence 0 = 0 := by
  norm_num [monthlyAmountInPence, jsRound]

theorem monthlyAmountInPence_neg5 : monthlyAmountInPence (-5) = -167 := by
  norm_num [monthlyAmountInPence, jsRound]

theorem toFixed2_91_thirds : toFixed2 ((91 : ℚ) / 3) = "30.33" := by
  have h : jsRound ((91 : ℚ) / 3 * 100) = 3033 := by norm_num [jsRound]
  simp only [toFixed2, h]
  decide

theorem one_le_countEmail_of_find (reg : Registry) (email : String) (c : Customer)
    (h : getCustomerByEmail reg email = some c) : 1 ≤ countEmail reg email := by
  have h' : reg.find? (fun x => x.email == email) = some c := h
  have hmem : c ∈ reg := List.mem_of_find?_eq_some h'
  have hp := List.find?_some h'
  have hf : c ∈ reg.filter (fun c => c.email == email) :=
    List.mem_filter.mpr ⟨hmem, hp⟩
  exact List.length_pos_of_mem hf

theorem countEmail_of_find_none (reg : Registry) (email : String)
    (h : getCustomerByEmail reg email = none) : countEmail reg email = 0 := by
  have h' : reg.find? (fun x => x.email == email) = none := h
  have hall := List.find?_eq_none.mp h'
  simp only [countEmail, List.length_eq_zero]
  exact List.filter_eq_nil_iff.mpr hall

theorem countEmail_append_one (reg : Registry) (email nid pcn vreg : String) :
    countEmail (reg ++ [⟨nid, email, pcn, vreg, none, none⟩]) email
      = countEmail reg email + 1 := by
  simp [countEmail, List.filter_append]

theorem raceStep_inv (email pcn vreg id1 id2 : String) (s : RaceState) (w : Bool)
    (h : RaceInv email s) : RaceInv email (raceStep email pcn vreg id1 id2 s w) := by
  obtain ⟨h1, h2, h3⟩ := h
  cases w
  · cases hp : s.run2.phase
    case start =>
      cases hf : getCustomerByEmail s.registry email
      case none =>
        simp only [raceStep, runStep, hp, hf, if_neg Bool.false_ne_true]
        exact ⟨h1, h2, by simp⟩
      case some c =>
        have hc : countEmail s.registry email = 1 :=
          le_antisymm h1 (one_le_countEmail_of_find _ _ _ hf)
        simp only [raceStep, runStep, hp, hf, if_neg Bool.false_ne_true]
        exact ⟨h1, fun _ => hc, fun _ => hc⟩
    case sawAbsent =>
      cases hf : getCustomerByEmail s.registry email
      case none =>
        have hz : countEmail s.registry email = 0 := countEmail_of_find_none _ _ hf
        have hone : countEmail ((createCustomer s.registry id2 email pcn vreg).2) email = 1 := by
          simp only [createCustomer]
          rw [countEmail_append_one, hz]
        simp only [raceStep, runStep, hp, hf, if_neg Bool.false_ne_true]
        exact ⟨le_of_eq hone, fun _ => hone, fun _ => hone⟩
      case some c =>
        have hc : countEmail s.registry email = 1 :=
          le_antisymm h1 (one_le_countEmail_of_find _ _ _ hf)
        simp only [raceStep, runStep, hp, hf, if_neg Bool.false_ne_true]
        exact ⟨h1, fun _ => hc, fun _ => hc⟩
    case finished =>
      simp only [raceStep, runStep, hp, if_neg Bool.false_ne_true]
      exact ⟨h1, h2, h3⟩
  · cases hp : s.run1.phase
    case start =>
      cases hf : getCustomerByEmail s.registry email
      case none =>
        simp only [raceStep, runStep, hp, hf, if_pos rfl]
        exact ⟨h1, by simp, h3⟩
      case some c =>
        have hc : countEmail s.registry email = 1 :=
          le_antisymm h1 (one_le_countEmail_of_find _ _ _ hf)
        simp only [raceStep, runStep, hp, hf, if_pos rfl]
        exact ⟨h1, fun _ => hc, fun _ => hc⟩
    case sawAbsent =>
      cases hf : getCustomerByEmail s.registry email
      case none =>
        have hz : countEmail s.registry email = 0 := countEmail_of_find_none _ _ hf
        have hone : countEmail ((createCustomer s.registry id1 email pcn vreg).2) email = 1 := by
          simp only [createCustomer]
          rw [countEmail_append_one, hz]
        simp only [raceStep, runStep, hp, hf, if_pos rfl]
        exact ⟨le_of_eq hone, fun _ => hone, fun _ => hone⟩
      case some c =>
        have hc : countEmail s.registry email = 1 :=
          le_antisymm h1 (one_le_countEmail_of_find _ _ _ hf)
        simp only [raceStep, runStep, hp, hf, if_pos rfl]
        exact ⟨h1, fun _ => hc, fun _ => hc⟩
    case finished =>
      simp only [raceStep, runStep, hp, if_pos rfl]
      exact ⟨h1, h2, h3⟩

theorem execRace_inv (email pcn vreg id1 id2 : String) (sched : List Bool) :
    RaceInv email (execRace email pcn vreg id1 id2 sched) := by
  have base : RaceInv email ⟨[], ⟨.start, none⟩, ⟨.start, none⟩⟩ :=
    ⟨by simp [countEmail], by simp, by simp⟩
  have gen : ∀ (l : List Bool) (s : RaceState), RaceInv email s →
      RaceInv email (l.foldl (raceStep email pcn vreg id1 id2) s) := by
    intro l
    induction l with
    | nil => intro s hs; exact hs
    | cons a t ih =>
        intro s hs
        exact ih _ (raceStep_inv email pcn vreg id1 id2 s a hs)
  exact gen sched _ base


theorem qToString_91 : qToString (91 : ℚ) = "91" := by decide

/-- C1 counterexample: at penalty amount 91 the mode-B run creates a single
recurring price of `monthlyAmountInPence 91 = 3033` pence and bills it for 3
schedule iterations, so the three instalments are 3033 each; their sum
3 · 3033 = 9099 differs from round(91 · 100) = 9100, and no instalment
receives the rounding remainder. -/
theorem split_correctness_counterexample :
    Event.pricesCreate (monthlyAmountInPence 91) "gbp" "prod_1" []
        ∈ (createCheckoutSession (demoReq 91) [] demoBase demoOracle).2.2 ∧
    Event.subscriptionSchedulesCreate "cus_1" "price_1"
        [("pcnNumber", "PCN1"), ("vehicleRegistration", "AB12CDE"),
         ("totalPayments", "3"), ("penaltyAmount", "91"), ("monthlyAmount", "30.33")] 3
        ∈ (createCheckoutSession (demoReq 91) [] demoBase demoOracle).2.2 ∧
    monthlyAmountInPence 91 = 3033 ∧
    3 * monthlyAmountInPence 91 ≠ jsRound (91 * 100) := by
  refine ⟨?_, ?_, monthlyAmountInPence_91, ?_⟩
  · simp [createCheckoutSession, resolveIdentity, ensureStripeCustomer, createCustomer,
      getCustomerByEmail, demoReq, demoOracle, demoBase]
  · simp [createCheckoutSession, resolveIdentity, ensureStripeCustomer, createCustomer,
      getCustomerByEmail, demoReq, demoOracle, demoBase, qToString_91, toFixed2_91_thirds]
  · rw [monthlyAmountInPence_91]
    norm_num [jsRound]

/-- C1 (amended): the three instalments are all equal — each is the unit
amount `monthlyAmountInPence A = round(A / 3 · 100)` of the one created
price, billed for 3 schedule iterations — so no rounding remainder is
assigned to the first instalment and the instalment sum can miss
round(A · 100) (at A = 91 it is 9099, not 9100); the sum is however always
within one minor unit of round(A · 100). -/
theorem split_correctness_amended :
    (∀ A : ℚ, (jsRound (A * 100) - 3 * monthlyAmountInPence A).natAbs ≤ 1) ∧
    (∀ (req : ProvisionRequest) (reg : Registry) (b : String) (o : Oracle),
      Event.pricesCreate (monthlyAmountInPence req.penaltyAmount) "gbp" o.productId []
        ∈ (createCheckoutSession req reg b o).2.2) ∧
    (∀ (req : ProvisionRequest) (b : String) (o : Oracle),
      Event.subscriptionSchedulesCreate o.newStripeCustomerId o.priceId
        [("pcnNumber", req.pcnNumber), ("vehicleRegistration", req.vehicleRegistration),
         ("totalPayments", "3"), ("penaltyAmount", qToString req.penaltyAmount),
         ("monthlyAmount", toFixed2 (req.penaltyAmount / 3))] 3
        ∈ (createCheckoutSession req [] b o).2.2) := by
  refine ⟨?_, ?_, ?_⟩
  · intro A
    have hm : monthlyAmountInPence A = ⌊A * 100 / 3 + 1 / 2⌋ := by
      unfold monthlyAmountInPence jsRound
      congr 1
      ring
    have h1 : (↑(jsRound (A * 100)) : ℚ) ≤ A * 100 + 1 / 2 := Int.floor_le _
    have h2 : A * 100 + 1 / 2 < ↑(jsRound (A * 100)) + 1 := Int.lt_floor_add_one _
    have h3 : (↑(monthlyAmountInPence A) : ℚ) ≤ A * 100 / 3 + 1 / 2 := by
      rw [hm]; exact Int.floor_le _
    have h4 : A * 100 / 3 + 1 / 2 < ↑(monthlyAmountInPence A) + 1 := by
      rw [hm]; exact Int.lt_floor_add_one _
    have hlt : jsRound (A * 100) - 3 * monthlyAmountInPence A < 2 := by
      have : (↑(jsRound (A * 100) - 3 * monthlyAmountInPence A) : ℚ) < 2 := by
        push_cast; linarith
      exact_mod_cast this
    have hgt : (-2 : ℤ) < jsRound (A * 100) - 3 * monthlyAmountInPence A := by
      have : (-2 : ℚ) < ↑(jsRound (A * 100) - 3 * monthlyAmountInPence A) := by
        push_cast; linarith
      exact_mod_cast this
    omega
  · intro req reg b o
    simp [createCheckoutSession, List.mem_append]
  · intro req b o
    simp [createCheckoutSession, resolveIdentity, ensureStripeCustomer, createCustomer,
      getCustomerByEmail, List.mem_append]

/-- C2 counterexample: the mode-B route performs no input validation —
with `penaltyAmount = 0` the run goes straight to identity resolution
(the first call issued is the customer lookup), proceeds to create a price
of 0 pence and returns the checkout-session payload instead of failing with
a ValidationError; with `penaltyAmount = -5` it likewise proceeds, creating
a price of −167 pence. -/
theorem validation_boundary_counterexample :
    (createCheckoutSession (demoReq 0) [] demoBase demoOracle).1
        = ⟨"cs_1", "https://checkout.stripe.com/c/pay/cs_1", "c1"⟩ ∧
    (createCheckoutSession (demoReq 0) [] demoBase demoOracle).2.2.head?
        = some (Event.getCustomer "a@x.com") ∧
    Event.pricesCreate 0 "gbp" "prod_1" []
        ∈ (createCheckoutSession (demoReq 0) [] demoBase demoOracle).2.2 ∧
    Event.pricesCreate (-167) "gbp" "prod_1" []
        ∈ (createCheckoutSession (demoReq (-5)) [] demoBase demoOracle).2.2 := by
  refine ⟨rfl, rfl, ?_, ?_⟩
  · simp [createCheckoutSession, resolveIdentity, ensureStripeCustomer, createCustomer,
      getCustomerByEmail, demoReq, demoOracle, demoBase, monthlyAmountInPence_zero]
  · simp [createCheckoutSession, resolveIdentity, ensureStripeCustomer, createCustomer,
      getCustomerByEmail, demoReq, demoOracle, demoBase, monthlyAmountInPence_neg5]

/-- C2 (amended): neither route validates `penaltyAmount`, and the mode-B
route validates nothing at all: for every request — any penalty amount,
zero or negative included — the first call issued is the identity lookup,
the run creates a price of `monthlyAmountInPence penaltyAmount` pence and
returns the session payload. (Mode A parses only the three identity fields
through the schema and never reads `penaltyAmount`.) -/
theorem validation_boundary_amended :
    ∀ (req : ProvisionRequest) (reg : Registry) (b : String) (o : Oracle),
      (createCheckoutSession req reg b o).2.2.head?
          = some (Event.getCustomer req.email) ∧
      Event.pricesCreate (monthlyAmountInPence req.penaltyAmount) "gbp" o.productId []
          ∈ (createCheckoutSession req reg b o).2.2 ∧
      (createCheckoutSession req reg b o).1.sessionId = o.sessionId := by
  intro req reg b o
  refine ⟨?_, ?_, ?_⟩
  · cases hc : getCustomerByEmail reg req.email <;>
      simp [createCheckoutSession, resolveIdentity, hc]
  · simp [createCheckoutSession, List.mem_append]
  · simp [createCheckoutSession]

/-- C8 counterexample: the value returned as the redirect url is the
processor-produced session url verbatim; in a concrete run with base url
`http://localhost:5000` the returned url is the Stripe-hosted
`https://checkout.stripe.com/...` address, which does not start with the
configured base url. -/
theorem redirect_url_counterexample :
    (createCheckoutSession (demoReq 91) [] demoBase demoOracle).1.url
        = "https://checkout.stripe.com/c/pay/cs_1" ∧
    strStartsWith demoBase
        ((createCheckoutSession (demoReq 91) [] demoBase demoOracle).1.url)
      = false := by
  exact ⟨rfl, by decide⟩

/-- C8 (amended): a successful mode-B response carries the session id, the
local customer id, and the processor's session url verbatim (not a url
derived from the base url); what does start with the configured base url are
the success and cancel urls passed to the checkout-session creation call. -/
theorem redirect_url_amended :
    ∀ (req : ProvisionRequest) (reg : Registry) (b : String) (o : Oracle),
      (createCheckoutSession req reg b o).1.sessionId = o.sessionId ∧
      (createCheckoutSession req reg b o).1.url = o.sessionUrl ∧
      (createCheckoutSession req reg b o).1.customerId
          = (resolveIdentity req reg o).customer.id ∧
      (∃ cid md, Event.checkoutSessionsCreate cid
          (b ++ "/payment-success?session_id=\x7bCHECKOUT_SESSION_ID\x7d")
          (b ++ "/") md ∈ (createCheckoutSession req reg b o).2.2) := by
  intro req reg b o
  refine ⟨?_, ?_, ?_, ?_⟩
  · simp [createCheckoutSession]
  · simp [createCheckoutSession]
  · simp [createCheckoutSession, ensureStripeCustomer_customer_id]
  · refine ⟨(ensureStripeCustomer (resolveIdentity req reg o).customer
        (resolveIdentity req reg o).registry o).stripeCustomerId,
      [("customerId", (ensureStripeCustomer (resolveIdentity req reg o).customer
          (resolveIdentity req reg o).registry o).customer.id),
       ("pcnNumber", (ensureStripeCustomer (resolveIdentity req reg o).customer
          (resolveIdentity req reg o).registry o).customer.pcnNumber),
       ("vehicleRegistration", (ensureStripeCustomer (resolveIdentity req reg o).customer
          (resolveIdentity req reg o).registry o).customer.vehicleRegistration),
       ("penaltyAmount", qToString req.penaltyAmount),
       ("monthlyAmount", toFixed2 (req.penaltyAmount / 3))], ?_⟩
    simp [createCheckoutSession, List.mem_append]

/-- C9: the mode-A route charges a fixed 3000 pence (£30.00) per instalment
— the created price's unit amount is the literal 3000 — and the request's
`penaltyAmount` is never read: the whole run (response, final registry and
call trace) is unchanged under any replacement of `penaltyAmount`. -/
theorem direct_mode_fixed_amount :
    ∀ (req : ProvisionRequest) (reg : Registry) (o : Oracle) (A : ℚ),
      createSubscription { req with penaltyAmount := A } reg o
          = createSubscription req reg o ∧
      Event.pricesCreate 3000 "gbp" o.productId []
          ∈ (createSubscription req reg o).2.2 := by
  intro req reg o A
  constructor
  · rfl
  · simp [createSubscription, List.mem_append]


/-- C3: once a customer record carries a Stripe customer id, both routes
retrieve that Stripe customer by the stored id — the run issues no
`customers.create` call — and the record still carries the same id after
the run. -/
theorem monotonic_processor_attachment :
    ∀ (req : ProvisionRequest) (reg : Registry) (b : String) (o : Oracle)
      (c : Customer) (sid : String),
      getCustomerByEmail reg req.email = some c →
      c.stripeCustomerId = some sid →
      ((∀ e m, Event.customersCreate e m ∉ (createSubscription req reg o).2.2) ∧
       Event.customersRetrieve sid ∈ (createSubscription req reg o).2.2 ∧
       ((createSubscription req reg o).2.1.find? (fun x => x.email == req.email)).map
           Customer.stripeCustomerId = some (some sid)) ∧
      ((∀ e m, Event.customersCreate e m ∉ (createCheckoutSession req reg b o).2.2) ∧
       Event.customersRetrieve sid ∈ (createCheckoutSession req reg b o).2.2 ∧
       ((createCheckoutSession req reg b o).2.1.find? (fun x => x.email == req.email)).map
           Customer.stripeCustomerId = some (some sid)) := by
  intro req reg b o c sid hc hs
  have hc' : reg.find? (fun x => x.email == req.email) = some c := hc
  refine ⟨⟨?_, ?_, ?_⟩, ⟨?_, ?_, ?_⟩⟩
  · intro e m
    simp [createSubscription, resolveIdentity, hc, ensureStripeCustomer, hs]
  · simp [createSubscription, resolveIdentity, hc, ensureStripeCustomer, hs]
  · simp only [createSubscription, resolveIdentity, hc, ensureStripeCustomer, hs]
    rw [find?_updateCustomerStripeInfo, hc']
    simp
  · intro e m
    simp [createCheckoutSession, resolveIdentity, hc, ensureStripeCustomer, hs]
  · simp [createCheckoutSession, resolveIdentity, hc, ensureStripeCustomer, hs]
  · simp only [createCheckoutSession, resolveIdentity, hc, ensureStripeCustomer, hs]
    rw [hc']
    simp [hs]

/-- C3 witness: a registry already holding a customer with Stripe id
`cus_1` run through both routes with a fresh request. -/
theorem monotonic_processor_attachment_witness :
    ((∀ e m, Event.customersCreate e m
        ∉ (createSubscription (demoReq 91) [demoCustomer] demoOracle).2.2) ∧
     Event.customersRetrieve "cus_1"
        ∈ (createSubscription (demoReq 91) [demoCustomer] demoOracle).2.2 ∧
     ((createSubscription (demoReq 91) [demoCustomer] demoOracle).2.1.find?
          (fun x => x.email == (demoReq 91).email)).map
         Customer.stripeCustomerId = some (some "cus_1")) ∧
    ((∀ e m, Event.customersCreate e m
        ∉ (createCheckoutSession (demoReq 91) [demoCustomer] demoBase demoOracle).2.2) ∧
     Event.customersRetrieve "cus_1"
        ∈ (createCheckoutSession (demoReq 91) [demoCustomer] demoBase demoOracle).2.2 ∧
     ((createCheckoutSession (demoReq 91) [demoCustomer] demoBase demoOracle).2.1.find?
          (fun x => x.email == (demoReq 91).email)).map
         Customer.stripeCustomerId = some (some "cus_1")) :=
  monotonic_processor_attachment (demoReq 91) [demoCustomer] demoBase demoOracle
    demoCustomer "cus_1" rfl rfl

/-- C4: in every run that creates a new Stripe customer — equivalently,
whose trace contains a `customers.create` call — the returned id is
persisted through `updateCustomerStripeInfo` before any charge-scheme call:
some prefix of the trace already contains the persist call and contains no
product, price, subscription or schedule creation. -/
theorem persist_before_charge_scheme :
    ∀ (req : ProvisionRequest) (reg : Registry) (b : String) (o : Oracle),
      ((∃ e m, Event.customersCreate e m ∈ (createSubscription req reg o).2.2) →
        ∃ n, (∃ cid, Event.storeStripeInfo cid o.newStripeCustomerId none
                ∈ ((createSubscription req reg o).2.2.take n)) ∧
          ∀ ev ∈ ((createSubscription req reg o).2.2.take n),
            isChargeSchemeCall ev = false) ∧
      ((∃ e m, Event.customersCreate e m ∈ (createCheckoutSession req reg b o).2.2) →
        ∃ n, (∃ cid, Event.storeStripeInfo cid o.newStripeCustomerId none
                ∈ ((createCheckoutSession req reg b o).2.2.take n)) ∧
          ∀ ev ∈ ((createCheckoutSession req reg b o).2.2.take n),
            isChargeSchemeCall ev = false) := by
  intro req reg b o
  constructor
  · intro h
    rcases hc : getCustomerByEmail reg req.email with _ | c
    · refine ⟨4, ⟨o.newLocalId, ?_⟩, ?_⟩
      · simp [createSubscription, resolveIdentity, hc, ensureStripeCustomer, createCustomer]
      · intro ev hev
        simp [createSubscription, resolveIdentity, hc, ensureStripeCustomer,
          createCustomer] at hev
        rcases hev with rfl | rfl | rfl | rfl <;> rfl
    · rcases hs : c.stripeCustomerId with _ | sid
      · refine ⟨3, ⟨c.id, ?_⟩, ?_⟩
        · simp [createSubscription, resolveIdentity, hc, ensureStripeCustomer, hs]
        · intro ev hev
          simp [createSubscription, resolveIdentity, hc, ensureStripeCustomer, hs] at hev
          rcases hev with rfl | rfl | rfl <;> rfl
      · exfalso
        rcases h with ⟨e, m, hm⟩
        simp [createSubscription, resolveIdentity, hc, ensureStripeCustomer, hs] at hm
  · intro h
    rcases hc : getCustomerByEmail reg req.email with _ | c
    · refine ⟨4, ⟨o.newLocalId, ?_⟩, ?_⟩
      · simp [createCheckoutSession, resolveIdentity, hc, ensureStripeCustomer, createCustomer]
      · intro ev hev
        simp [createCheckoutSession, resolveIdentity, hc, ensureStripeCustomer,
          createCustomer] at hev
        rcases hev with rfl | rfl | rfl | rfl <;> rfl
    · rcases hs : c.stripeCustomerId with _ | sid
      · refine ⟨3, ⟨c.id, ?_⟩, ?_⟩
        · simp [createCheckoutSession, resolveIdentity, hc, ensureStripeCustomer, hs]
        · intro ev hev
          simp [createCheckoutSession, resolveIdentity, hc, ensureStripeCustomer, hs] at hev
          rcases hev with rfl | rfl | rfl <;> rfl
      · exfalso
        rcases h with ⟨e, m, hm⟩
        simp [createCheckoutSession, resolveIdentity, hc, ensureStripeCustomer, hs] at hm

/-- C4 witness: a creating run from the empty registry, mode A. -/
theorem persist_before_charge_scheme_witness :
    ∃ n, (∃ cid, Event.storeStripeInfo cid "cus_1" none
            ∈ ((createSubscription (demoReq 91) [] demoOracle).2.2.take n)) ∧
      ∀ ev ∈ ((createSubscription (demoReq 91) [] demoOracle).2.2.take n),
        isChargeSchemeCall ev = false :=
  (persist_before_charge_scheme (demoReq 91) [] demoBase demoOracle).1
    ⟨"a@x.com", [("pcnNumber", "PCN1"), ("vehicleRegistration", "AB12CDE")],
      by simp [createSubscription, resolveIdentity, ensureStripeCustomer,
        createCustomer, getCustomerByEmail, demoReq, demoOracle]⟩


/-- C5 counterexample: a complete, successful mode-B run from a fresh
registry returns the session payload while the customer record's
`stripeSubscriptionId` is still unset — the schedule's subscription id is
never persisted before (or after) returning. -/
theorem subscription_persist_counterexample :
    (createCheckoutSession (demoReq 91) [] demoBase demoOracle).1.sessionId = "cs_1" ∧
    ((createCheckoutSession (demoReq 91) [] demoBase demoOracle).2.1.find?
        (fun x => x.email == "a@x.com")).map Customer.stripeSubscriptionId
      = some none := by
  constructor <;> rfl

/-- C5 (amended): mode A persists the subscription id before returning —
the run issues `updateCustomerStripeInfo` carrying it and the final record
holds it — but mode B persists no subscription or schedule id at all: no
storage call of any mode-B run carries a subscription id. -/
theorem subscription_persist_amended :
    (∀ (req : ProvisionRequest) (o : Oracle),
      Event.storeStripeInfo o.newLocalId o.newStripeCustomerId (some o.subscriptionId)
          ∈ (createSubscription req [] o).2.2 ∧
      ((createSubscription req [] o).2.1.find? (fun x => x.email == req.email)).map
          Customer.stripeSubscriptionId = some (some o.subscriptionId)) ∧
    (∀ (req : ProvisionRequest) (reg : Registry) (b : String) (o : Oracle)
        (cid scid : String) (subId : Option String),
      Event.storeStripeInfo cid scid subId ∈ (createCheckoutSession req reg b o).2.2 →
      subId = none) := by
  constructor
  · intro req o
    constructor
    · simp [createSubscription, resolveIdentity, ensureStripeCustomer, createCustomer,
        getCustomerByEmail]
    · simp [createSubscription, resolveIdentity, ensureStripeCustomer, createCustomer,
        getCustomerByEmail, updateCustomerStripeInfo, applyStripeInfo, Option.orElse]
  · intro req reg b o cid scid subId hm
    rcases hc : getCustomerByEmail reg req.email with _ | c
    · simp [createCheckoutSession, resolveIdentity, hc, ensureStripeCustomer,
        createCustomer] at hm
      tauto
    · rcases hs : c.stripeCustomerId with _ | sid
      · simp [createCheckoutSession, resolveIdentity, hc, ensureStripeCustomer, hs] at hm
        tauto
      · simp [createCheckoutSession, resolveIdentity, hc, ensureStripeCustomer, hs] at hm

/-- C5 witness: the only storage call of a fresh mode-B run that writes
Stripe ids carries no subscription id. -/
theorem subscription_persist_amended_witness :
    (none : Option String) = none :=
  subscription_persist_amended.2 (demoReq 91) [] demoBase demoOracle "c1" "cus_1" none
    (by simp [createCheckoutSession, resolveIdentity, ensureStripeCustomer,
      createCustomer, getCustomerByEmail, demoReq, demoOracle])

/-- C6 counterexample: in the interleaving where both racing runs look the
email up before either creates, the loser's `createCustomer` hits the
conflict and the run finishes with the error surfaced to its caller — the
code has no re-fetch recovery — while the registry holds exactly one
record. -/
theorem conflict_surfaced_counterexample :
    (execRace "a@x.com" "PCN1" "AB12CDE" "c1" "c2"
        [true, false, true, false]).run2.outcome
      = some RunOutcome.conflictSurfaced ∧
    countEmail (execRace "a@x.com" "PCN1" "AB12CDE" "c1" "c2"
        [true, false, true, false]).registry "a@x.com" = 1 := by
  decide

/-- C6 (amended): after any interleaving of two provisioning attempts for
one email the registry holds at most one record for it — exactly one from
the moment either attempt has finished — and a repeated sequential
provisioning run also leaves exactly one record; however, the conflict a
racing create raises is surfaced to that caller as an error outcome, not
recovered by re-fetching. -/
theorem identity_resolution_amended :
    (∀ (email pcn vreg id1 id2 : String) (sched : List Bool),
      countEmail (execRace email pcn vreg id1 id2 sched).registry email ≤ 1) ∧
    (∀ (email pcn vreg id1 id2 : String) (sched : List Bool),
      ((execRace email pcn vreg id1 id2 sched).run1.outcome.isSome ∨
        (execRace email pcn vreg id1 id2 sched).run2.outcome.isSome) →
      countEmail (execRace email pcn vreg id1 id2 sched).registry email = 1) ∧
    (∀ (req : ProvisionRequest) (b : String) (o o2 : Oracle),
      countEmail (createCheckoutSession req
          ((createCheckoutSession req [] b o).2.1) b o2).2.1 req.email = 1) := by
  refine ⟨?_, ?_, ?_⟩
  · intro e p v i1 i2 sched
    exact (execRace_inv e p v i1 i2 sched).1
  · intro e p v i1 i2 sched h
    rcases h with h | h
    · exact (execRace_inv e p v i1 i2 sched).2.1 h
    · exact (execRace_inv e p v i1 i2 sched).2.2 h
  · intro req b o o2
    simp [createCheckoutSession, resolveIdentity, ensureStripeCustomer, createCustomer,
      getCustomerByEmail, updateCustomerStripeInfo, applyStripeInfo, countEmail]

/-- C6 witness: the racing interleaving of the counterexample, where run 1
has finished, indeed leaves exactly one record. -/
theorem identity_resolution_amended_witness :
    countEmail (execRace "a@x.com" "PCN1" "AB12CDE" "c1" "c2"
        [true, false, true, false]).registry "a@x.com" = 1 :=
  identity_resolution_amended.2.1 "a@x.com" "PCN1" "AB12CDE" "c1" "c2"
    [true, false, true, false] (Or.inl (by decide))

/-- C10: provisioning for an email that already has a record leaves the
stored pcnNumber and vehicleRegistration unchanged; the created
subscription's metadata carries the stored values while the created
product's name and description carry the values from the current request. -/
theorem existing_customer_fields_preserved :
    ∀ (req : ProvisionRequest) (reg : Registry) (o : Oracle) (c : Customer),
      getCustomerByEmail reg req.email = some c →
      (((createSubscription req reg o).2.1.find? (fun x => x.email == req.email)).map
          (fun x => (x.pcnNumber, x.vehicleRegistration))
        = some (c.pcnNumber, c.vehicleRegistration)) ∧
      (∃ sid ca, Event.subscriptionsCreate sid o.priceId
          [("pcnNumber", c.pcnNumber), ("vehicleRegistration", c.vehicleRegistration),
           ("totalPayments", "3")] ca ∈ (createSubscription req reg o).2.2) ∧
      Event.productsCreate ("PCN Payment Plan - " ++ req.pcnNumber)
          ("Recurring payment plan for PCN " ++ req.pcnNumber ++ ", Vehicle " ++
            req.vehicleRegistration) []
        ∈ (createSubscription req reg o).2.2 := by
  intro req reg o c hc
  have hc' : reg.find? (fun x => x.email == req.email) = some c := hc
  rcases hs : c.stripeCustomerId with _ | sid
  · refine ⟨?_, ⟨o.newStripeCustomerId, o.nowSec + 90 * 24 * 60 * 60, ?_⟩, ?_⟩
    · simp only [createSubscription, resolveIdentity, hc, ensureStripeCustomer, hs]
      rw [find?_updateCustomerStripeInfo, find?_updateCustomerStripeInfo, hc']
      simp
    · simp [createSubscription, resolveIdentity, hc, ensureStripeCustomer, hs]
    · simp [createSubscription, resolveIdentity, hc, ensureStripeCustomer, hs]
  · refine ⟨?_, ⟨sid, o.nowSec + 90 * 24 * 60 * 60, ?_⟩, ?_⟩
    · simp only [createSubscription, resolveIdentity, hc, ensureStripeCustomer, hs]
      rw [find?_updateCustomerStripeInfo, hc']
      simp
    · simp [createSubscription, resolveIdentity, hc, ensureStripeCustomer, hs]
    · simp [createSubscription, resolveIdentity, hc, ensureStripeCustomer, hs]

/-- C10 witness: a request with different pcn and registration than the
stored record. -/
theorem existing_customer_fields_preserved_witness :
    (((createSubscription ⟨"a@x.com", "PCN9", "ZZ99ZZZ", 60⟩ [demoCustomer]
          demoOracle).2.1.find? (fun x => x.email == "a@x.com")).map
        (fun x => (x.pcnNumber, x.vehicleRegistration))
      = some ("PCN1", "AB12CDE")) ∧
    (∃ sid ca, Event.subscriptionsCreate sid "price_1"
        [("pcnNumber", "PCN1"), ("vehicleRegistration", "AB12CDE"),
         ("totalPayments", "3")] ca
        ∈ (createSubscription ⟨"a@x.com", "PCN9", "ZZ99ZZZ", 60⟩ [demoCustomer]
            demoOracle).2.2) ∧
    Event.productsCreate "PCN Payment Plan - PCN9"
        "Recurring payment plan for PCN PCN9, Vehicle ZZ99ZZZ" []
      ∈ (createSubscription ⟨"a@x.com", "PCN9", "ZZ99ZZZ", 60⟩ [demoCustomer]
          demoOracle).2.2 :=
  existing_customer_fields_preserved ⟨"a@x.com", "PCN9", "ZZ99ZZZ", 60⟩
    [demoCustomer] demoOracle demoCustomer rfl


/-- C7 counterexample: in a concrete mode-A run the created product carries
no metadata at all — in particular no `totalPayments` entry — and the
created Stripe customer's metadata has no `totalPayments` entry either,
refuting "every created processor object carries totalPayments = 3". -/
theorem metadata_counterexample :
    Event.productsCreate "PCN Payment Plan - PCN1"
        "Recurring payment plan for PCN PCN1, Vehicle AB12CDE" []
      ∈ (createSubscription (demoReq 91) [] demoOracle).2.2 ∧
    Event.customersCreate "a@x.com"
        [("pcnNumber", "PCN1"), ("vehicleRegistration", "AB12CDE")]
      ∈ (createSubscription (demoReq 91) [] demoOracle).2.2 ∧
    ("totalPayments", "3") ∉ ([] : List (String × String)) ∧
    ("totalPayments", "3")
      ∉ [("pcnNumber", "PCN1"), ("vehicleRegistration", "AB12CDE")] := by
  refine ⟨?_, ?_, by decide, by decide⟩ <;>
    simp [createSubscription, resolveIdentity, ensureStripeCustomer, createCustomer,
      getCustomerByEmail, demoReq, demoOracle]

/-- C7 (amended): metadata is not uniform across created processor objects.
In both modes the Stripe customer carries only pcnNumber and
vehicleRegistration, and the product and the price carry no metadata at
all; the mode-B schedule carries pcnNumber, vehicleRegistration,
totalPayments = 3, penaltyAmount and monthlyAmount; the mode-B checkout
session carries customerId, pcnNumber, vehicleRegistration, penaltyAmount
and monthlyAmount but no totalPayments entry; the mode-A subscription
carries pcnNumber, vehicleRegistration and totalPayments = 3. -/
theorem metadata_amended :
    ∀ (req : ProvisionRequest) (reg : Registry) (b : String) (o : Oracle),
      (∀ e m, Event.customersCreate e m ∈ (createCheckoutSession req reg b o).2.2 →
        metaKeys m = ["pcnNumber", "vehicleRegistration"]) ∧
      (∀ n d m, Event.productsCreate n d m ∈ (createCheckoutSession req reg b o).2.2 →
        m = []) ∧
      (∀ u cu p m, Event.pricesCreate u cu p m ∈ (createCheckoutSession req reg b o).2.2 →
        m = []) ∧
      (∀ cid pid m it,
        Event.subscriptionSchedulesCreate cid pid m it
            ∈ (createCheckoutSession req reg b o).2.2 →
        metaKeys m = ["pcnNumber", "vehicleRegistration", "totalPayments",
          "penaltyAmount", "monthlyAmount"] ∧ ("totalPayments", "3") ∈ m) ∧
      (∀ cid su cu m,
        Event.checkoutSessionsCreate cid su cu m ∈ (createCheckoutSession req reg b o).2.2 →
        metaKeys m = ["customerId", "pcnNumber", "vehicleRegistration",
          "penaltyAmount", "monthlyAmount"] ∧ ("totalPayments", "3") ∉ m) ∧
      (∀ e m, Event.customersCreate e m ∈ (createSubscription req reg o).2.2 →
        metaKeys m = ["pcnNumber", "vehicleRegistration"]) ∧
      (∀ n d m, Event.productsCreate n d m ∈ (createSubscription req reg o).2.2 →
        m = []) ∧
      (∀ u cu p m, Event.pricesCreate u cu p m ∈ (createSubscription req reg o).2.2 →
        m = []) ∧
      (∀ cid pid m ca,
        Event.subscriptionsCreate cid pid m ca ∈ (createSubscription req reg o).2.2 →
        metaKeys m = ["pcnNumber", "vehicleRegistration", "totalPayments"] ∧
          ("totalPayments", "3") ∈ m) := by
  intro req reg b o
  refine ⟨?_, ?_, ?_, ?_, ?_, ?_, ?_, ?_, ?_⟩
  · intro e m hm
    simp only [createCheckoutSession, List.append_assoc, List.mem_append] at hm
    rcases hm with h | h | h
    · rcases mem_resolveIdentity_events _ _ _ _ h with h' | h' <;> exact Event.noConfusion h'
    · rcases mem_ensureStripeCustomer_events _ _ _ _ h with ⟨s, h'⟩ | h' | h'
      · exact Event.noConfusion h'
      · injection h' with h1 h2
        subst h2
        rfl
      · exact Event.noConfusion h'
    · simp only [List.mem_cons, List.not_mem_nil, or_false] at h
      rcases h with h | h | h | h <;> exact Event.noConfusion h
  · intro n d m hm
    simp only [createCheckoutSession, List.append_assoc, List.mem_append] at hm
    rcases hm with h | h | h
    · rcases mem_resolveIdentity_events _ _ _ _ h with h' | h' <;> exact Event.noConfusion h'
    · rcases mem_ensureStripeCustomer_events _ _ _ _ h with ⟨s, h'⟩ | h' | h' <;>
        exact Event.noConfusion h'
    · simp only [List.mem_cons, List.not_mem_nil, or_false] at h
      rcases h with h | h | h | h
      · injection h with h1 h2 h3
      · exact Event.noConfusion h
      · exact Event.noConfusion h
      · exact Event.noConfusion h
  · intro u cu p m hm
    simp only [createCheckoutSession, List.append_assoc, List.mem_append] at hm
    rcases hm with h | h | h
    · rcases mem_resolveIdentity_events _ _ _ _ h with h' | h' <;> exact Event.noConfusion h'
    · rcases mem_ensureStripeCustomer_events _ _ _ _ h with ⟨s, h'⟩ | h' | h' <;>
        exact Event.noConfusion h'
    · simp only [List.mem_cons, List.not_mem_nil, or_false] at h
      rcases h with h | h | h | h
      · exact Event.noConfusion h
      · injection h with h1 h2 h3 h4
      · exact Event.noConfusion h
      · exact Event.noConfusion h
  · intro cid pid m it hm
    simp only [createCheckoutSession, List.append_assoc, List.mem_append] at hm
    rcases hm with h | h | h
    · rcases mem_resolveIdentity_events _ _ _ _ h with h' | h' <;> exact Event.noConfusion h'
    · rcases mem_ensureStripeCustomer_events _ _ _ _ h with ⟨s, h'⟩ | h' | h' <;>
        exact Event.noConfusion h'
    · simp only [List.mem_cons, List.not_mem_nil, or_false] at h
      rcases h with h | h | h | h
      · exact Event.noConfusion h
      · exact Event.noConfusion h
      · injection h with h1 h2 h3 h4
        subst h3
        exact ⟨rfl, by simp⟩
      · exact Event.noConfusion h
  · intro cid su cu m hm
    simp only [createCheckoutSession, List.append_assoc, List.mem_append] at hm
    rcases hm with h | h | h
    · rcases mem_resolveIdentity_events _ _ _ _ h with h' | h' <;> exact Event.noConfusion h'
    · rcases mem_ensureStripeCustomer_events _ _ _ _ h with ⟨s, h'⟩ | h' | h' <;>
        exact Event.noConfusion h'
    · simp only [List.mem_cons, List.not_mem_nil, or_false] at h
      rcases h with h | h | h | h
      · exact Event.noConfusion h
      · exact Event.noConfusion h
      · exact Event.noConfusion h
      · injection h with h1 h2 h3 h4
        subst h4
        exact ⟨rfl, by simp⟩
  · intro e m hm
    simp only [createSubscription, List.append_assoc, List.mem_append] at hm
    rcases hm with h | h | h
    · rcases mem_resolveIdentity_events _ _ _ _ h with h' | h' <;> exact Event.noConfusion h'
    · rcases mem_ensureStripeCustomer_events _ _ _ _ h with ⟨s, h'⟩ | h' | h'
      · exact Event.noConfusion h'
      · injection h' with h1 h2
        subst h2
        rfl
      · exact Event.noConfusion h'
    · simp only [List.mem_cons, List.not_mem_nil, or_false] at h
      rcases h with h | h | h | h <;> exact Event.noConfusion h
  · intro n d m hm
    simp only [createSubscription, List.append_assoc, List.mem_append] at hm
    rcases hm with h | h | h
    · rcases mem_resolveIdentity_events _ _ _ _ h with h' | h' <;> exact Event.noConfusion h'
    · rcases mem_ensureStripeCustomer_events _ _ _ _ h with ⟨s, h'⟩ | h' | h' <;>
        exact Event.noConfusion h'
    · simp only [List.mem_cons, List.not_mem_nil, or_false] at h
      rcases h with h | h | h | h
      · injection h with h1 h2 h3
      · exact Event.noConfusion h
      · exact Event.noConfusion h
      · exact Event.noConfusion h
  · intro u cu p m hm
    simp only [createSubscription, List.append_assoc, List.mem_append] at hm
    rcases hm with h | h | h
    · rcases mem_resolveIdentity_events _ _ _ _ h with h' | h' <;> exact Event.noConfusion h'
    · rcases mem_ensureStripeCustomer_events _ _ _ _ h with ⟨s, h'⟩ | h' | h' <;>
        exact Event.noConfusion h'
    · simp only [List.mem_cons, List.not_mem_nil, or_false] at h
      rcases h with h | h | h | h
      · exact Event.noConfusion h
      · injection h with h1 h2 h3 h4
      · exact Event.noConfusion h
      · exact Event.noConfusion h
  · intro cid pid m ca hm
    simp only [createSubscription, List.append_assoc, List.mem_append] at hm
    rcases hm with h | h | h
    · rcases mem_resolveIdentity_events _ _ _ _ h with h' | h' <;> exact Event.noConfusion h'
    · rcases mem_ensureStripeCustomer_events _ _ _ _ h with ⟨s, h'⟩ | h' | h' <;>
        exact Event.noConfusion h'
    · simp only [List.mem_cons, List.not_mem_nil, or_false] at h
      rcases h with h | h | h | h
      · exact Event.noConfusion h
      · exact Event.noConfusion h
      · injection h with h1 h2 h3 h4
        subst h3
        exact ⟨rfl, by simp⟩
      · exact Event.noConfusion h

/-- C7 witness: the schedule created by a concrete fresh mode-B run indeed
carries the five audit keys with totalPayments = 3. -/
theorem metadata_amended_witness :
    metaKeys [("pcnNumber", "PCN1"), ("vehicleRegistration", "AB12CDE"),
        ("totalPayments", "3"), ("penaltyAmount", qToString 91),
        ("monthlyAmount", toFixed2 ((91 : ℚ) / 3))]
      = ["pcnNumber", "vehicleRegistration", "totalPayments",
        "penaltyAmount", "monthlyAmount"] ∧
    ("totalPayments", "3")
      ∈ [("pcnNumber", "PCN1"), ("vehicleRegistration", "AB12CDE"),
        ("totalPayments", "3"), ("penaltyAmount", qToString 91),
        ("monthlyAmount", toFixed2 ((91 : ℚ) / 3))] :=
  (metadata_amended (demoReq 91) [] demoBase demoOracle).2.2.2.1 "cus_1" "price_1"
    [("pcnNumber", "PCN1"), ("vehicleRegistration", "AB12CDE"),
     ("totalPayments", "3"), ("penaltyAmount", qToString 91),
     ("monthlyAmount", toFixed2 ((91 : ℚ) / 3))] 3
    (by simp [createCheckoutSession, resolveIdentity, ensureStripeCustomer,
      createCustomer, getCustomerByEmail, demoReq, demoOracle])

end PayChargePortal
